import Mathlib

/-!
Verification of the YouTubePulse analysis pipeline.

The development shallowly embeds the two server-side reducers of
`src/server.js` (`calculateEnhancedMetrics`, `getVideoBreakdown`) and the
collection / analysis services of the repository (`gatherChannelIntelligence`
and its per-video fetch helpers, `analyzeSentiment`, `analyzeHooks`).

JavaScript numbers are modelled as `Option ℚ`: `none` stands for `NaN`.
In this program every division whose divisor is `0` also has dividend `0`
(so JavaScript would produce `NaN`, never `Infinity`); arithmetic on `NaN`
propagates, and `NaN > 0` is `false`.  `toFixed k` is modelled on the exact
rational value per the ECMAScript algorithm (the integer `n` minimizing
`|n / 10^k - x|`, ties taking the larger `n`), and `Math.round x` is
`⌊x + 1/2⌋`.  Publish timestamps are carried as the epoch-millisecond value
denoted by `new Date(publishedAt)`.
-/

/-- JavaScript number restricted to this program: a rational, or NaN. -/
abbrev JNum := Option ℚ

/-- Embed a natural-number count into a JS number. -/
def jofNat (n : ℕ) : JNum := some (n : ℚ)

/-- JS subtraction; NaN propagates. -/
def jsub : JNum → JNum → JNum
  | some a, some b => some (a - b)
  | _, _ => none

/-- JS multiplication; NaN propagates. -/
def jmul : JNum → JNum → JNum
  | some a, some b => some (a * b)
  | _, _ => none

/-- JS division as it occurs in this program: NaN propagates, and a zero
divisor yields NaN (every zero-divisor division here also has a zero
dividend, where JavaScript likewise yields NaN). -/
def jdiv : JNum → JNum → JNum
  | some a, some b => if b = 0 then none else some (a / b)
  | _, _ => none

/-- JS comparison `x > 0`; false on NaN. -/
def jgtZero : JNum → Bool
  | some a => decide (0 < a)
  | none => false

/-- JS `Math.round`: half rounds toward positive infinity; NaN propagates. -/
def jround : JNum → JNum
  | some a => some ((⌊a + 1/2⌋ : ℤ) : ℚ)
  | none => none

/-- The numeric value of `parseFloat(x.toFixed(k))` (or `parseInt` for
`k = 0`): the value rounded to `k` decimals, ties toward the larger
candidate per the ECMAScript `toFixed` algorithm; NaN propagates (the
string "NaN" parses back to NaN). -/
def jfix (k : ℕ) : JNum → JNum
  | some a => some (((⌊a * (10 ^ k : ℚ) + 1/2⌋ : ℤ) : ℚ) / (10 ^ k : ℚ))
  | none => none

/-- Digit rendering of a non-negative integer number of hundredths, as
`toFixed(2)` renders it: integer part, a dot, two fraction digits. -/
def hundredthsStr (m : ℕ) : String :=
  toString (m / 100) ++ "." ++
    (if m % 100 < 10 then "0" ++ toString (m % 100) else toString (m % 100))

/-- JS `x.toFixed(2)` as a string: "NaN" on NaN, otherwise the value
rounded to hundredths (ties toward the larger candidate). -/
def toFixed2Str : JNum → String
  | none => "NaN"
  | some a =>
      if ⌊a * 100 + 1/2⌋ < 0 then "-" ++ hundredthsStr (-⌊a * 100 + 1/2⌋).toNat
      else hundredthsStr (⌊a * 100 + 1/2⌋).toNat

/-- Engagement counters of one video as the data source reports them;
a field the source omits is `none` (JS `undefined`). -/
structure VideoStats where
  viewCount : Option ℕ
  likeCount : Option ℕ
  commentCount : Option ℕ
  duration : String
deriving DecidableEq

/-- One top-level comment as mapped from the data source. -/
structure Comment where
  text : String
  likeCount : ℕ
  author : String
  publishedAt : String
deriving DecidableEq

/-- Channel statistics as mapped from the data source. -/
structure ChannelStats where
  subscriberCount : String
  totalViews : String
  totalVideos : String
  channelName : String
  channelDescription : String
  publishedAt : String
deriving DecidableEq

/-- One video with its gathered data; `publishedAt` carries the
epoch-millisecond value `new Date(publishedAt)` denotes. -/
structure Video where
  videoId : String
  title : String
  description : String
  publishedAt : ℤ
  thumbnails : String
  transcript : Option String
  comments : List Comment
  stats : VideoStats
deriving DecidableEq

/-- The aggregate dataset `gatherChannelIntelligence` builds. -/
structure ChannelDataset where
  channelId : String
  channelHandle : String
  channelStats : ChannelStats
  videos : List Video
  totalVideosAnalyzed : ℕ
  totalComments : ℕ
deriving DecidableEq

/-- The error kinds relevant to the metrics engine: `typeError` is the
runtime error JavaScript raises when a property of `undefined` is read;
`insufficientData` is the error kind the specification names for the
zero-video case (the implementation never constructs it). -/
inductive JsErr where
  | typeError
  | insufficientData
deriving DecidableEq

/-- The `bestPerformingVideo` summary inside the metrics record; `views`
and `likes` are the raw (possibly missing) stats fields. -/
structure BestVideoSummary where
  title : String
  views : Option ℕ
  likes : Option ℕ
deriving DecidableEq

/-- The metrics record `calculateEnhancedMetrics` returns. -/
structure Metrics where
  videosAnalyzed : ℕ
  commentsProcessed : ℕ
  totalViews : ℕ
  avgViews : JNum
  viewsTrend : JNum
  totalLikes : ℕ
  avgLikes : JNum
  engagementRate : JNum
  totalComments : ℕ
  avgComments : JNum
  commentRate : JNum
  bestPerformingVideo : BestVideoSummary
  uploadFrequency : JNum
  transcriptAvailability : JNum
  subscriberCount : String
  totalChannelViews : String
  totalChannelVideos : String
deriving DecidableEq

/-- One row of the per-video breakdown. -/
structure BreakdownEntry where
  title : String
  publishedAt : ℤ
  views : ℕ
  likes : ℕ
  comments : ℕ
  engagementRate : String
  hasTranscript : Bool
  commentCount : ℕ
deriving DecidableEq

/-- JS `parseInt(field || 0)` on a possibly-missing counter: 0 when missing. -/
def parseIntD (o : Option ℕ) : ℕ := o.getD 0

/-- JS `parseInt(field)` with no default: NaN when the field is missing. -/
def parseIntOpt (o : Option ℕ) : JNum := o.map fun n => (n : ℚ)

/-- The view count `calculateEnhancedMetrics` reads off a video:
`parseInt(v.stats.viewCount || 0)`. -/
def viewsOf (v : Video) : ℕ := parseIntD v.stats.viewCount

/-- Truthiness of `v.transcript && v.transcript.length > 0`: false for a
missing or empty transcript. -/
def hasTranscriptB (v : Video) : Bool :=
  match v.transcript with
  | none => false
  | some t => decide (0 < t.length)

/-- Stable insertion step for a descending sort by the key `f`: the new
element goes after every element with a strictly larger key and before
the first element whose key is not larger. -/
def insByKey {α κ : Type} [LinearOrder κ] (f : α → κ) (x : α) : List α → List α
  | [] => [x]
  | h :: t => if f x < f h then h :: insByKey f x t else x :: h :: t

/-- Stable descending sort by the key `f`, the order JavaScript's stable
`Array.prototype.sort` produces for the comparator `(a, b) => f b - f a`. -/
def sortDescBy {α κ : Type} [LinearOrder κ] (f : α → κ) : List α → List α
  | [] => []
  | h :: t => insByKey f h (sortDescBy f t)

/-- Sum of `parseInt(v.stats.viewCount || 0)` over a video list
(`videos.reduce((sum, v) => sum + parseInt(v.stats.viewCount || 0), 0)`). -/
def statsViewSum (videos : List Video) : ℕ :=
  videos.foldl (fun sum v => sum + parseIntD v.stats.viewCount) 0

/-- Sum of `parseInt(v.stats.likeCount || 0)` over a video list. -/
def statsLikeSum (videos : List Video) : ℕ :=
  videos.foldl (fun sum v => sum + parseIntD v.stats.likeCount) 0

/-- Sum of `parseInt(v.stats.commentCount || 0)` over a video list. -/
def statsCommentSum (videos : List Video) : ℕ :=
  videos.foldl (fun sum v => sum + parseIntD v.stats.commentCount) 0

/-- The `bestVideo` reduction of `calculateEnhancedMetrics`:
`videos.reduce((best, current) => currentViews > bestViews ? current : best,
videos[0])`.  On an empty list JavaScript returns the seed `videos[0]`,
which is `undefined`, modelled as `none`. -/
def bestVideo (videos : List Video) : Option Video :=
  match videos with
  | [] => none
  | v :: _ =>
      some (videos.foldl (fun best current =>
        if viewsOf best < viewsOf current then current else best) v)

/-- The metrics reducer of `src/server.js` (lines 62-121).  Reading
`bestVideo.title` on a zero-video dataset raises a `TypeError` (the reduce
seed `videos[0]` is `undefined`), so the function is `Except`-valued. -/
def calculateEnhancedMetrics (d : ChannelDataset) : Except JsErr Metrics :=
  let videos := d.videos
  let totalViews := statsViewSum videos
  let totalLikes := statsLikeSum videos
  let totalComments := statsCommentSum videos
  let avgViews := jround (jdiv (jofNat totalViews) (jofNat videos.length))
  let avgLikes := jround (jdiv (jofNat totalLikes) (jofNat videos.length))
  let avgComments := jround (jdiv (jofNat totalComments) (jofNat videos.length))
  let engagementRate : JNum :=
    if 0 < totalViews then
      jfix 2 (jmul (jdiv (jofNat totalLikes) (jofNat totalViews)) (some 100))
    else some 0
  let commentRate : JNum :=
    if 0 < totalViews then
      jfix 2 (jmul (jdiv (jofNat totalComments) (jofNat totalViews)) (some 100))
    else some 0
  let dates := sortDescBy id (videos.map Video.publishedAt)
  let daysBetweenFirstAndLast : JNum :=
    match dates with
    | [] => none
    | d0 :: rest => some (((d0 - List.getLastD rest d0 : ℤ) : ℚ) / (1000 * 60 * 60 * 24))
  let uploadFrequency : JNum :=
    if jgtZero daysBetweenFirstAndLast then
      jfix 1 (jmul (jdiv (jofNat videos.length) daysBetweenFirstAndLast) (some 7))
    else some 0
  let midpoint := videos.length / 2
  let recentVideos := videos.take midpoint
  let olderVideos := videos.drop midpoint
  let recentAvgViews := jdiv (jofNat (statsViewSum recentVideos)) (jofNat recentVideos.length)
  let olderAvgViews := jdiv (jofNat (statsViewSum olderVideos)) (jofNat olderVideos.length)
  let viewsTrend : JNum :=
    if jgtZero olderAvgViews then
      jfix 1 (jmul (jdiv (jsub recentAvgViews olderAvgViews) olderAvgViews) (some 100))
    else some 0
  let videosWithTranscripts := (videos.filter hasTranscriptB).length
  let transcriptAvailability :=
    jfix 0 (jmul (jdiv (jofNat videosWithTranscripts) (jofNat videos.length)) (some 100))
  match bestVideo videos with
  | none => .error .typeError
  | some bv => .ok {
      videosAnalyzed := videos.length
      commentsProcessed := d.totalComments
      totalViews := totalViews
      avgViews := avgViews
      viewsTrend := viewsTrend
      totalLikes := totalLikes
      avgLikes := avgLikes
      engagementRate := engagementRate
      totalComments := totalComments
      avgComments := avgComments
      commentRate := commentRate
      bestPerformingVideo := {
        title := bv.title
        views := bv.stats.viewCount
        likes := bv.stats.likeCount }
      uploadFrequency := uploadFrequency
      transcriptAvailability := transcriptAvailability
      subscriberCount := d.channelStats.subscriberCount
      totalChannelViews := d.channelStats.totalViews
      totalChannelVideos := d.channelStats.totalVideos }

/-- One row of `getVideoBreakdown` before sorting (lines 124-134 of
`src/server.js`).  Note the engagement-rate branch parses `likeCount` and
`viewCount` without the `|| 0` default used everywhere else. -/
def mkBreakdownEntry (v : Video) : BreakdownEntry :=
  { title := v.title
    publishedAt := v.publishedAt
    views := parseIntD v.stats.viewCount
    likes := parseIntD v.stats.likeCount
    comments := parseIntD v.stats.commentCount
    engagementRate :=
      if jgtZero (parseIntOpt v.stats.viewCount) then
        toFixed2Str (jmul (jdiv (parseIntOpt v.stats.likeCount)
          (parseIntOpt v.stats.viewCount)) (some 100))
      else "0.00"
    hasTranscript := hasTranscriptB v
    commentCount := v.comments.length }

/-- The per-video breakdown of `src/server.js`: map every video to its row,
then sort by views descending with JavaScript's stable sort. -/
def getVideoBreakdown (videos : List Video) : List BreakdownEntry :=
  sortDescBy BreakdownEntry.views (videos.map mkBreakdownEntry)

deriving instance DecidableEq for Except

/-- The listing fields `getLatestVideos` maps off a search result item. -/
structure VideoListing where
  videoId : String
  title : String
  description : String
  publishedAt : ℤ
  thumbnails : String
deriving DecidableEq

/-- The outcomes of the three per-video sub-fetches, as the external data
provider resolves or rejects them.  A successful comment fetch carries the
provider's full relevance-ordered comment list for the video; the provider
returns at most `maxResults` of it per request. -/
structure VideoFetch where
  listing : VideoListing
  transcriptFetch : Except String (List String)
  commentsFetch : Except String (List Comment)
  statsFetch : Except String VideoStats
deriving DecidableEq

/-- `getTranscript`: a successful fetch joins the caption items with a
space; any failure is caught and yields `null`. -/
def getTranscript (r : Except String (List String)) : Option String :=
  match r with
  | .ok items => some (String.intercalate " " items)
  | .error _ => none

/-- `getTopComments`: a successful request returns the provider's first
`maxResults` comments; any failure is caught and yields an empty list. -/
def getTopComments (r : Except String (List Comment)) (maxResults : ℕ) : List Comment :=
  match r with
  | .ok items => items.take maxResults
  | .error _ => []

/-- `getVideoStats`: a failure is rethrown with a wrapped message. -/
def getVideoStats (r : Except String VideoStats) : Except String VideoStats :=
  match r with
  | .ok s => .ok s
  | .error e => .error ("Error fetching video stats: " ++ e)

/-- The per-video join inside `gatherChannelIntelligence`: the three
sub-fetches run concurrently; `getTranscript` and `getTopComments` never
reject, so the joined promise rejects exactly when the stats fetch does. -/
def fetchVideoData (vf : VideoFetch) : Except String Video :=
  match getVideoStats vf.statsFetch with
  | .error e => .error e
  | .ok stats => .ok {
      videoId := vf.listing.videoId
      title := vf.listing.title
      description := vf.listing.description
      publishedAt := vf.listing.publishedAt
      thumbnails := vf.listing.thumbnails
      transcript := getTranscript vf.transcriptFetch
      comments := getTopComments vf.commentsFetch 50
      stats := stats }

/-- `Promise.all` over the per-video joins: the whole collection rejects
as soon as any video's join rejects. -/
def collectVideos : List VideoFetch → Except String (List Video)
  | [] => .ok []
  | vf :: rest =>
      match fetchVideoData vf with
      | .error e => .error e
      | .ok v =>
          match collectVideos rest with
          | .error e => .error e
          | .ok vs => .ok (v :: vs)

/-- The dataset total-comments reduction
(`videoData.reduce((sum, v) => sum + v.comments.length, 0)`). -/
def commentLenSum (videos : List Video) : ℕ :=
  videos.foldl (fun sum v => sum + v.comments.length) 0

/-- `gatherChannelIntelligence` over the outcomes of the external fetches:
resolve the channel id, fetch channel stats and the video listing, join the
per-video fetches, and assemble the dataset; any rejection is rethrown with
the wrapping message. -/
def gatherChannelIntelligence (channelHandle : String)
    (channelIdFetch : Except String String)
    (channelStatsFetch : Except String ChannelStats)
    (videosFetch : Except String (List VideoFetch)) : Except String ChannelDataset :=
  match channelIdFetch with
  | .error e => .error ("Intelligence gathering failed: " ++ e)
  | .ok channelId =>
      match channelStatsFetch with
      | .error e => .error ("Intelligence gathering failed: " ++ e)
      | .ok channelStats =>
          match videosFetch with
          | .error e => .error ("Intelligence gathering failed: " ++ e)
          | .ok vfs =>
              match collectVideos vfs with
              | .error e => .error ("Intelligence gathering failed: " ++ e)
              | .ok videoData => .ok {
                  channelId := channelId
                  channelHandle := channelHandle
                  channelStats := channelStats
                  videos := videoData
                  totalVideosAnalyzed := videoData.length
                  totalComments := commentLenSum videoData }

/-- One complaint row of a sentiment result. -/
structure ComplaintItem where
  text : String
  frequency : String
deriving DecidableEq

/-- The sentiment-gap analysis result shape. -/
structure SentimentResult where
  complaints : List ComplaintItem
  mostRequestedFeature : String
deriving DecidableEq

/-- The hook analysis result shape. -/
structure HooksResult where
  primaryHook : String
  secondaryHooks : List String
  strategy : String
deriving DecidableEq

/-- The fixed placeholder `analyzeSentiment` returns when fewer than 5
comments exist. -/
def insufficientDataSentiment : SentimentResult :=
  { complaints := [
      { text := "Limited engagement data", frequency := "medium" },
      { text := "Low comment activity", frequency := "low" },
      { text := "Check community settings", frequency := "low" }]
    mostRequestedFeature := "More data needed" }

/-- The fixed positive-sentiment placeholder `analyzeSentiment` returns
when the model call or parse fails. -/
def positiveFallbackSentiment : SentimentResult :=
  { complaints := [
      { text := "Positive audience response", frequency := "high" },
      { text := "Strong engagement", frequency := "medium" },
      { text := "Active community", frequency := "low" }]
    mostRequestedFeature := "Similar content" }

/-- Effect of the `while (data.complaints.length < 3)` padding loop:
append generic positive-sentiment filler until at least 3 items exist. -/
def padComplaintsTo3 (l : List ComplaintItem) : List ComplaintItem :=
  l ++ List.replicate (3 - l.length) { text := "Positive sentiment", frequency := "low" }

/-- `analyzeSentiment` of the AI service.  `gen` is the external
text-generation call (`callOllama`), `parseObj` the first-JSON-object
regex match plus `JSON.parse` of the model output; both are external
boundaries.  The second component records whether the model was invoked. -/
def analyzeSentiment (gen : String → Except String String)
    (parseObj : String → Option SentimentResult)
    (comments : List Comment) : SentimentResult × Bool :=
  if comments.length < 5 then
    (insufficientDataSentiment, false)
  else
    let commentTexts := (String.intercalate "\n" (comments.map Comment.text)).take 2000
    let prompt := "Find common themes in comments. Return JSON: \x7b\"complaints\":[\x7b\"text\":\"theme\",\"frequency\":\"high\"\x7d],\"mostRequestedFeature\":\"feature\"\x7d\n\n" ++ commentTexts
    match gen prompt with
    | .ok response =>
        match parseObj response with
        | some data => ({ data with complaints := padComplaintsTo3 data.complaints }, true)
        | none => (positiveFallbackSentiment, true)
    | .error _ => (positiveFallbackSentiment, true)

/-- The fixed "Entertainment & Spectacle" result of the title heuristic in
`analyzeHooks`. -/
def spectacleHooks : HooksResult :=
  { primaryHook := "Entertainment & Spectacle"
    secondaryHooks := ["FOMO", "Curiosity"]
    strategy := "Viral content with high production value" }

/-- The fixed generic placeholder `analyzeHooks` returns when the model
call or parse fails. -/
def fallbackHooks : HooksResult :=
  { primaryHook := "Viewer Entertainment"
    secondaryHooks := ["Engagement"]
    strategy := "Audience retention focus" }

/-- Characters of `s.toLowerCase()`. -/
def lowerData (s : String) : List Char := s.data.map Char.toLower

/-- JS `String.prototype.includes` on character lists: the needle occurs
as a contiguous substring. -/
def containsSub (needle : List Char) : List Char → Bool
  | [] => needle.isEmpty
  | c :: rest => needle.isPrefixOf (c :: rest) || containsSub needle rest

/-- `analyzeHooks` of the AI service: lower-case every title; if any
contains "challenge" or "$", return the fixed spectacle result without
touching the model; otherwise invoke the model and fall back on failure. -/
def analyzeHooks (gen : String → Except String String)
    (parseObj : String → Option HooksResult)
    (videoData : List Video) : HooksResult × Bool :=
  let titles := videoData.map fun v => lowerData v.title
  if titles.any (fun t => containsSub "challenge".data t || containsSub "$".data t) then
    (spectacleHooks, false)
  else
    let summaries := (String.intercalate "\n" (videoData.map Video.title)).take 1500
    let prompt := "What is the main emotional hook? Return JSON: \x7b\"primaryHook\":\"hook\",\"secondaryHooks\":[\"h1\"],\"strategy\":\"desc\"\x7d\n\nTitles:\n" ++ summaries
    match gen prompt with
    | .ok response =>
        match parseObj response with
        | some data => (data, true)
        | none => (fallbackHooks, true)
    | .error _ => (fallbackHooks, true)

/-! ## Concrete fixtures used by witnesses and counterexamples -/

/-- Channel statistics fixture. -/
def chanStatsFix : ChannelStats :=
  { subscriberCount := "1000", totalViews := "50000", totalVideos := "10"
    channelName := "chan", channelDescription := "about", publishedAt := "2020-01-01" }

/-- Dataset with zero videos. -/
def dsEmpty : ChannelDataset :=
  { channelId := "c1", channelHandle := "@empty", channelStats := chanStatsFix
    videos := [], totalVideosAnalyzed := 0, totalComments := 0 }

/-- Video with 100 views, 10 likes. -/
def vPos : Video :=
  { videoId := "v1", title := "alpha", description := "d", publishedAt := 1700000000000
    thumbnails := "t", transcript := none, comments := []
    stats := { viewCount := some 100, likeCount := some 10, commentCount := some 5, duration := "PT1M" } }

/-- Dataset holding exactly the one video `vPos`. -/
def dsOnePos : ChannelDataset :=
  { channelId := "c1", channelHandle := "@one", channelStats := chanStatsFix
    videos := [vPos], totalVideosAnalyzed := 1, totalComments := 0 }

/-- Video with zero views. -/
def vZero : Video :=
  { videoId := "v2", title := "beta", description := "d", publishedAt := 1700000000000
    thumbnails := "t", transcript := none, comments := []
    stats := { viewCount := some 0, likeCount := none, commentCount := none, duration := "PT1M" } }

/-- Dataset holding exactly the one video `vZero`. -/
def dsOneZero : ChannelDataset :=
  { channelId := "c1", channelHandle := "@onez", channelStats := chanStatsFix
    videos := [vZero], totalVideosAnalyzed := 1, totalComments := 0 }

/-- Video whose stats report 10 views but omit the like counter, as the
source does when likes are hidden. -/
def vMissingLikes : Video :=
  { videoId := "v3", title := "gamma", description := "d", publishedAt := 1700000000000
    thumbnails := "t", transcript := none, comments := []
    stats := { viewCount := some 10, likeCount := none, commentCount := some 0, duration := "PT1M" } }

/-- Video whose title contains "CHALLENGE". -/
def vChallengeTitle : Video :=
  { videoId := "v4", title := "Big CHALLENGE run", description := "d", publishedAt := 0
    thumbnails := "t", transcript := none, comments := []
    stats := { viewCount := none, likeCount := none, commentCount := none, duration := "PT1M" } }

/-- Text-generation call that always fails (model unavailable). -/
def genUnavailable : String → Except String String := fun _ => Except.error "model unavailable"

/-- JSON extraction that never finds a sentiment object. -/
def parseSentNone : String → Option SentimentResult := fun _ => none

/-- JSON extraction that never finds a hooks object. -/
def parseHooksNone : String → Option HooksResult := fun _ => none

/-! ## C1: zero-video datasets -/

/-- C1 (counterexample): on the zero-video dataset the metrics computation
does not fail with the `InsufficientData` error kind the claim names. -/
theorem zeroVideos_not_insufficientData :
    calculateEnhancedMetrics dsEmpty ≠ Except.error JsErr.insufficientData := by
  decide

/-- C1 (amended): on every zero-video dataset `calculateEnhancedMetrics`
fails — with a `TypeError` from reading `bestVideo.title` off the
`undefined` reduce seed, not with an `InsufficientData` error kind — and
no `Metrics` value is produced. -/
theorem zeroVideos_metrics_typeError (d : ChannelDataset) (h : d.videos = []) :
    calculateEnhancedMetrics d = Except.error JsErr.typeError := by
  simp [calculateEnhancedMetrics, h, bestVideo]

/-- C1 (witness): the amended theorem applied to the concrete empty dataset. -/
theorem zeroVideos_metrics_typeError_witness :
    calculateEnhancedMetrics dsEmpty = Except.error JsErr.typeError :=
  zeroVideos_metrics_typeError dsEmpty rfl

/-! ## C3: missing counters in the per-video breakdown -/

/-- C3 (code bug): for a video whose stats report positive views but omit
the like counter, the breakdown engagement rate is the string "NaN" rather
than treating the missing counter as 0 (which would give "0.00"): the
engagement-rate branch parses `likeCount` without the `|| 0` default used
everywhere else. -/
theorem missingLikes_engagementRate_nan :
    (getVideoBreakdown [vMissingLikes]).map BreakdownEntry.engagementRate = ["NaN"] ∧
    (mkBreakdownEntry vMissingLikes).engagementRate ≠ "0.00" := by
  decide

/-! ## C5: sentiment analysis with fewer than 5 comments -/

/-- C5: with fewer than 5 comments, `analyzeSentiment` returns the fixed
insufficient-data placeholder — 3 generic medium/low-frequency complaint
items and `mostRequestedFeature = "More data needed"` — and never invokes
the text-generation model, whatever the model and parser would do. -/
theorem sentiment_few_comments_placeholder (gen : String → Except String String)
    (parseObj : String → Option SentimentResult) (comments : List Comment)
    (h : comments.length < 5) :
    analyzeSentiment gen parseObj comments = (insufficientDataSentiment, false) ∧
    insufficientDataSentiment.mostRequestedFeature = "More data needed" ∧
    insufficientDataSentiment.complaints.map ComplaintItem.frequency = ["medium", "low", "low"] := by
  refine ⟨?_, rfl, rfl⟩
  unfold analyzeSentiment
  rw [if_pos h]

/-- C5 (witness): the theorem applied to an empty comment list with a
failing model and parser. -/
theorem sentiment_few_comments_placeholder_witness :
    analyzeSentiment genUnavailable parseSentNone [] = (insufficientDataSentiment, false) ∧
    insufficientDataSentiment.mostRequestedFeature = "More data needed" ∧
    insufficientDataSentiment.complaints.map ComplaintItem.frequency = ["medium", "low", "low"] :=
  sentiment_few_comments_placeholder genUnavailable parseSentNone [] (by decide)

/-! ## C6: hook-analysis short circuit -/

/-- C6: whenever some video title, lower-cased, contains "challenge" or
"$", `analyzeHooks` returns the fixed "Entertainment & Spectacle" result
and never invokes the text-generation model, whatever the model and parser
would do. -/
theorem hooks_spectacle_shortcircuit (gen : String → Except String String)
    (parseObj : String → Option HooksResult) (videoData : List Video)
    (h : ∃ v ∈ videoData, containsSub "challenge".data (lowerData v.title) = true ∨
        containsSub "$".data (lowerData v.title) = true) :
    analyzeHooks gen parseObj videoData = (spectacleHooks, false) := by
  obtain ⟨v, hv, hc⟩ := h
  have hany : (videoData.map fun v => lowerData v.title).any
      (fun t => containsSub "challenge".data t || containsSub "$".data t) = true := by
    rw [List.any_eq_true]
    refine ⟨lowerData v.title, List.mem_map_of_mem _ hv, ?_⟩
    rcases hc with hc | hc <;> simp [hc]
  simp [analyzeHooks, hany]

/-- C6 (witness): the theorem applied to a list holding a "CHALLENGE"
title, with a failing model and parser. -/
theorem hooks_spectacle_shortcircuit_witness :
    analyzeHooks genUnavailable parseHooksNone [vChallengeTitle] = (spectacleHooks, false) :=
  hooks_spectacle_shortcircuit genUnavailable parseHooksNone [vChallengeTitle]
    ⟨vChallengeTitle, by decide, Or.inl (by decide)⟩

/-! ## C2: single-video datasets -/

/-- C2 (counterexample): on a dataset holding one video with 100 views the
metrics succeed with `viewsTrend = NaN`, not "0": the older-half average is
the video's own positive view count, so the guard does not apply, while the
recent half (the first `floor(1/2) = 0` videos) is empty and its average is
NaN. -/
theorem singleVideo_viewsTrend_nan :
    (calculateEnhancedMetrics dsOnePos).toOption.map Metrics.viewsTrend = some none ∧
    some (none : JNum) ≠ some (some (0 : ℚ)) := by
  refine ⟨?_, by simp⟩
  norm_num [calculateEnhancedMetrics, dsOnePos, vPos, bestVideo, sortDescBy, insByKey,
    statsViewSum, jdiv, jsub, jmul, jfix, jgtZero, jofNat, jround, viewsOf, parseIntD,
    Except.toOption]

/-- C2 (amended): on every dataset with exactly one video,
`uploadFrequency` is 0 (zero date span), and `viewsTrend` is 0 exactly when
the video's parsed view count is 0 (then the older-half-average-zero guard
applies); when the view count is positive, `viewsTrend` is NaN, because the
split at `floor(1/2) = 0` makes the recent first half empty, not the older
second half. -/
theorem singleVideo_uploadFrequency_viewsTrend (d : ChannelDataset) (v : Video)
    (h : d.videos = [v]) :
    (calculateEnhancedMetrics d).toOption.map
        (fun m => (m.uploadFrequency, m.viewsTrend)) =
      some (some 0, if viewsOf v = 0 then some 0 else none) := by
  rcases Nat.eq_zero_or_pos (viewsOf v) with h0 | h0
  · have hp : parseIntD v.stats.viewCount = 0 := h0
    simp [calculateEnhancedMetrics, h, bestVideo, sortDescBy, insByKey, statsViewSum,
      jdiv, jsub, jmul, jfix, jgtZero, jofNat, jround, viewsOf, hp, Except.toOption]
  · have hp : 0 < parseIntD v.stats.viewCount := h0
    have hne : ¬parseIntD v.stats.viewCount = 0 := Nat.pos_iff_ne_zero.mp hp
    simp [calculateEnhancedMetrics, h, bestVideo, sortDescBy, insByKey, statsViewSum,
      jdiv, jsub, jmul, jfix, jgtZero, jofNat, jround, viewsOf, hp, hne, Except.toOption]

/-- C2 (witness): the amended theorem applied to the concrete dataset
holding one zero-view video. -/
theorem singleVideo_uploadFrequency_viewsTrend_witness :
    (calculateEnhancedMetrics dsOneZero).toOption.map
        (fun m => (m.uploadFrequency, m.viewsTrend)) =
      some (some 0, if viewsOf vZero = 0 then some 0 else none) :=
  singleVideo_uploadFrequency_viewsTrend dsOneZero vZero rfl

/-! ## Sorting lemmas shared by the breakdown claims -/

/-- Membership in the insertion step. -/
theorem insByKey_mem {α κ : Type} [LinearOrder κ] (f : α → κ) (x y : α) (l : List α) :
    y ∈ insByKey f x l ↔ y = x ∨ y ∈ l := by
  induction l with
  | nil => simp [insByKey]
  | cons h t ih =>
      by_cases hc : f x < f h
      · simp only [insByKey, if_pos hc, List.mem_cons, ih]
        tauto
      · simp only [insByKey, if_neg hc, List.mem_cons]

/-- The insertion step preserves descending sortedness by the key. -/
theorem insByKey_pairwise {α κ : Type} [LinearOrder κ] (f : α → κ) (x : α) (l : List α)
    (hl : l.Pairwise (fun a b => f b ≤ f a)) :
    (insByKey f x l).Pairwise (fun a b => f b ≤ f a) := by
  induction l with
  | nil => simp [insByKey]
  | cons h t ih =>
      rcases List.pairwise_cons.mp hl with ⟨hh, ht⟩
      by_cases hc : f x < f h
      · simp only [insByKey, if_pos hc]
        refine List.pairwise_cons.mpr ⟨?_, ih ht⟩
        intro y hy
        rcases (insByKey_mem f x y t).mp hy with rfl | hy'
        · exact le_of_lt hc
        · exact hh y hy'
      · simp only [insByKey, if_neg hc]
        refine List.pairwise_cons.mpr ⟨?_, hl⟩
        intro y hy
        rcases List.mem_cons.mp hy with rfl | hy'
        · exact not_lt.mp hc
        · exact le_trans (hh y hy') (not_lt.mp hc)

/-- The stable descending sort sorts: keys are non-increasing. -/
theorem sortDescBy_pairwise {α κ : Type} [LinearOrder κ] (f : α → κ) (l : List α) :
    (sortDescBy f l).Pairwise (fun a b => f b ≤ f a) := by
  induction l with
  | nil => simp [sortDescBy]
  | cons h t ih => exact insByKey_pairwise f h (sortDescBy f t) ih

/-- Stability of the insertion step: restricted to any class of elements
sharing one key, inserting changes nothing but prepending. -/
theorem insByKey_filter {α κ : Type} [LinearOrder κ] (f : α → κ) (p : α → Bool)
    (hp : ∀ a b, p a = true → p b = true → f a = f b) (x : α) (l : List α) :
    (insByKey f x l).filter p = ((x :: l).filter p) := by
  induction l with
  | nil => rfl
  | cons h t ih =>
      by_cases hc : f x < f h
      · simp only [insByKey, if_pos hc]
        by_cases ph : p h
        · have px : p x = false := by
            by_contra hx
            have hx' : p x = true := by simpa using hx
            exact absurd (hp x h hx' ph) (ne_of_lt hc)
          simp [List.filter_cons, ph, px, ih]
        · have ph' : p h = false := by simpa using ph
          simp [List.filter_cons, ph', ih]
      · simp only [insByKey, if_neg hc]

/-- Stability of the stable descending sort: restricted to any class of
elements sharing one key, sorting is the identity. -/
theorem sortDescBy_filter {α κ : Type} [LinearOrder κ] (f : α → κ) (p : α → Bool)
    (hp : ∀ a b, p a = true → p b = true → f a = f b) (l : List α) :
    (sortDescBy f l).filter p = l.filter p := by
  induction l with
  | nil => rfl
  | cons h t ih =>
      rw [sortDescBy, insByKey_filter f p hp]
      simp [List.filter_cons, ih]

/-! ## C7: breakdown ordering and stability -/

/-- C7: the video breakdown is sorted descending by views, and entries
sharing one view count keep the relative order of the input list: for
every view count `k`, the breakdown restricted to entries with `views = k`
is exactly the mapped input restricted the same way. -/
theorem videoBreakdown_sorted_stable (videos : List Video) :
    (getVideoBreakdown videos).Pairwise (fun a b => b.views ≤ a.views) ∧
    ∀ k : ℕ, (getVideoBreakdown videos).filter (fun e => e.views == k) =
      (videos.map mkBreakdownEntry).filter (fun e => e.views == k) := by
  constructor
  · exact sortDescBy_pairwise BreakdownEntry.views (videos.map mkBreakdownEntry)
  · intro k
    refine sortDescBy_filter BreakdownEntry.views (fun e => e.views == k) ?_ _
    intro a b ha hb
    have ha' : a.views = k := by simpa using ha
    have hb' : b.views = k := by simpa using hb
    rw [ha', hb']

/-! ## C8: the best-performing video -/

/-- Comparison definition following the specification's words: the video
with maximum view count, ties resolved by keeping the earliest video in
list order. -/
def earliestMaxSpec : List Video → Option Video
  | [] => none
  | v :: vs =>
      match earliestMaxSpec vs with
      | none => some v
      | some w => some (if viewsOf v < viewsOf w then w else v)

/-- The metrics reduction seeded with `b` computes the earliest maximum of
`b` followed by the list. -/
theorem foldl_best_eq (l : List Video) : ∀ b : Video,
    l.foldl (fun best current => if viewsOf best < viewsOf current then current else best) b =
      match earliestMaxSpec l with
      | none => b
      | some w => if viewsOf b < viewsOf w then w else b := by
  induction l with
  | nil => intro b; rfl
  | cons v t ih =>
      intro b
      rw [List.foldl_cons, ih]
      cases hspec : earliestMaxSpec t with
      | none => simp [earliestMaxSpec, hspec]
      | some w =>
          simp only [earliestMaxSpec, hspec]
          split_ifs <;> first | rfl | (exfalso; omega)

/-- A nonempty list has an earliest maximum. -/
theorem earliestMaxSpec_ne_none (v : Video) (t : List Video) :
    earliestMaxSpec (v :: t) ≠ none := by
  cases hspec : earliestMaxSpec t <;> simp [earliestMaxSpec, hspec]

/-- The earliest maximum has maximal views over the list. -/
theorem earliestMaxSpec_max (l : List Video) :
    ∀ b, earliestMaxSpec l = some b → ∀ u ∈ l, viewsOf u ≤ viewsOf b := by
  induction l with
  | nil => intro b hb; simp [earliestMaxSpec] at hb
  | cons v t ih =>
      intro b hb u hu
      cases hspec : earliestMaxSpec t with
      | none =>
          have ht : t = [] := by
            cases t with
            | nil => rfl
            | cons v' t' => exact absurd hspec (earliestMaxSpec_ne_none v' t')
          subst ht
          simp only [earliestMaxSpec, hspec, Option.some.injEq] at hb
          subst hb
          rcases List.mem_singleton.mp hu with rfl
          exact le_refl _
      | some w =>
          simp only [earliestMaxSpec, hspec, Option.some.injEq] at hb
          subst hb
          rcases List.mem_cons.mp hu with rfl | hu'
          · split_ifs with hvw
            · exact le_of_lt hvw
            · exact le_refl _
          · have huw := ih w hspec u hu'
            split_ifs with hvw
            · exact huw
            · exact le_trans huw (not_lt.mp hvw)

/-- C8: the `bestPerformingVideo` reduction computes the earliest video of
maximal view count — it equals the specification-side earliest-maximum
selection, and whatever video it returns has views at least those of every
list element. -/
theorem bestVideo_earliest_max (videos : List Video) :
    bestVideo videos = earliestMaxSpec videos ∧
    ∀ b, bestVideo videos = some b → ∀ u ∈ videos, viewsOf u ≤ viewsOf b := by
  have heq : bestVideo videos = earliestMaxSpec videos := by
    cases videos with
    | nil => rfl
    | cons v t =>
        show some _ = _
        rw [List.foldl_cons]
        have hstep : (if viewsOf v < viewsOf v then v else v) = v := by
          rw [if_neg (lt_irrefl _)]
        rw [hstep, foldl_best_eq]
        cases hspec : earliestMaxSpec t with
        | none => simp [earliestMaxSpec, hspec]
        | some w => simp [earliestMaxSpec, hspec]
  refine ⟨heq, ?_⟩
  intro b hb
  rw [heq] at hb
  exact earliestMaxSpec_max videos b hb

/-! ## Collection fixtures and lemmas -/

/-- Video listing fixture. -/
def listingFix : VideoListing :=
  { videoId := "vid", title := "T", description := "D", publishedAt := 500, thumbnails := "th" }

/-- Comment fixture. -/
def commentFix : Comment :=
  { text := "nice", likeCount := 1, author := "a", publishedAt := "2024-01-01" }

/-- Stats fixture. -/
def statsFix : VideoStats :=
  { viewCount := some 5, likeCount := some 1, commentCount := some 2, duration := "PT1M" }

/-- Per-video fetches where only the transcript fetch fails. -/
def vfTranscriptFail : VideoFetch :=
  { listing := listingFix, transcriptFetch := .error "no transcript"
    commentsFetch := .ok [commentFix], statsFetch := .ok statsFix }

/-- Per-video fetches where only the comment fetch fails. -/
def vfCommentsFail : VideoFetch :=
  { listing := listingFix, transcriptFetch := .ok ["hello"]
    commentsFetch := .error "comments disabled", statsFetch := .ok statsFix }

/-- Per-video fetches where the statistics fetch fails. -/
def vfStatsFail : VideoFetch :=
  { listing := listingFix, transcriptFetch := .ok ["hello"]
    commentsFetch := .ok [commentFix], statsFetch := .error "quota" }

/-- A successful stats fetch makes the per-video join succeed with the
transcript and comment fallbacks applied. -/
theorem fetchVideoData_ok (vf : VideoFetch) (s : VideoStats) (hs : vf.statsFetch = .ok s) :
    fetchVideoData vf = .ok {
      videoId := vf.listing.videoId
      title := vf.listing.title
      description := vf.listing.description
      publishedAt := vf.listing.publishedAt
      thumbnails := vf.listing.thumbnails
      transcript := getTranscript vf.transcriptFetch
      comments := getTopComments vf.commentsFetch 50
      stats := s } := by
  simp [fetchVideoData, getVideoStats, hs]

/-- A comment request never returns more than its bound. -/
theorem getTopComments_length_le (r : Except String (List Comment)) (n : ℕ) :
    (getTopComments r n).length ≤ n := by
  cases r with
  | ok items =>
      simp only [getTopComments, List.length_take]
      exact min_le_left _ _
  | error e => simp [getTopComments]

/-- Inversion of a successful collection step. -/
theorem collectVideos_cons_ok (vf : VideoFetch) (rest : List VideoFetch) (vd : List Video)
    (h : collectVideos (vf :: rest) = .ok vd) :
    ∃ v vs, fetchVideoData vf = .ok v ∧ collectVideos rest = .ok vs ∧ vd = v :: vs := by
  cases hf : fetchVideoData vf with
  | error e =>
      simp only [collectVideos, hf] at h
      exact Except.noConfusion h
  | ok v =>
      cases hc : collectVideos rest with
      | error e =>
          simp only [collectVideos, hf, hc] at h
          exact Except.noConfusion h
      | ok vs =>
          simp only [collectVideos, hf, hc, Except.ok.injEq] at h
          exact ⟨v, vs, rfl, rfl, h.symm⟩

/-- A failing stats fetch anywhere in the list fails the whole collection. -/
theorem collectVideos_statsError (pre post : List VideoFetch) (vf : VideoFetch) (e : String)
    (h : vf.statsFetch = .error e) :
    (collectVideos (pre ++ vf :: post)).toOption = none := by
  induction pre with
  | nil => simp [collectVideos, fetchVideoData, getVideoStats, h, Except.toOption]
  | cons p ps ih =>
      cases hf : fetchVideoData p with
      | error e1 => simp [collectVideos, hf, Except.toOption]
      | ok v =>
          cases hc : collectVideos (ps ++ vf :: post) with
          | error e1 => simp [collectVideos, hf, hc, Except.toOption]
          | ok vs => rw [hc] at ih; simp [Except.toOption] at ih

/-- Every video a successful collection returns carries at most 50
comments. -/
theorem collectVideos_comments_le (vfs : List VideoFetch) :
    ∀ vd, collectVideos vfs = .ok vd → ∀ v ∈ vd, v.comments.length ≤ 50 := by
  induction vfs with
  | nil =>
      intro vd h v hv
      simp only [collectVideos, Except.ok.injEq] at h
      subst h
      simp at hv
  | cons vf rest ih =>
      intro vd h v hv
      obtain ⟨w, vs, hf, hc, rfl⟩ := collectVideos_cons_ok vf rest vd h
      rcases List.mem_cons.mp hv with rfl | hv'
      · cases hs : vf.statsFetch with
        | error e => simp [fetchVideoData, getVideoStats, hs] at hf
        | ok s =>
            rw [fetchVideoData_ok vf s hs] at hf
            injection hf with hf'
            rw [← hf']
            exact getTopComments_length_le _ 50
      · exact ih vs hc v hv'

/-- Inversion of a successful gathering with resolved channel fetches. -/
theorem gather_ok_parts (handle cidv : String) (cstv : ChannelStats)
    (vfs : List VideoFetch) (d : ChannelDataset)
    (h : gatherChannelIntelligence handle (.ok cidv) (.ok cstv) (.ok vfs) = .ok d) :
    ∃ vd, collectVideos vfs = .ok vd ∧ d.videos = vd ∧
      d.totalComments = commentLenSum vd ∧ d.totalVideosAnalyzed = vd.length := by
  cases hcv : collectVideos vfs with
  | error e => simp [gatherChannelIntelligence, hcv] at h
  | ok vd =>
      simp only [gatherChannelIntelligence, hcv] at h
      injection h with h'
      subst h'
      exact ⟨vd, rfl, rfl, rfl, rfl⟩

/-! ## C4: per-video failure policy of the collection -/

/-- C4: during collection, a transcript-fetch failure is non-fatal and
yields a null transcript, a comment-fetch failure is non-fatal and yields
an empty comment list, but a statistics-fetch failure for any video makes
the whole collection fail, producing no dataset at all. -/
theorem fetch_failure_policy :
    (∀ (vf : VideoFetch) (e : String) (s : VideoStats),
        vf.transcriptFetch = .error e → vf.statsFetch = .ok s →
        (fetchVideoData vf).toOption.map Video.transcript = some none) ∧
    (∀ (vf : VideoFetch) (e : String) (s : VideoStats),
        vf.commentsFetch = .error e → vf.statsFetch = .ok s →
        (fetchVideoData vf).toOption.map Video.comments = some []) ∧
    (∀ (handle : String) (cid : Except String String) (cst : Except String ChannelStats)
        (pre post : List VideoFetch) (vf : VideoFetch) (e : String),
        vf.statsFetch = .error e →
        (gatherChannelIntelligence handle cid cst (.ok (pre ++ vf :: post))).toOption = none) := by
  refine ⟨?_, ?_, ?_⟩
  · intro vf e s ht hs
    rw [fetchVideoData_ok vf s hs]
    simp [getTranscript, ht, Except.toOption]
  · intro vf e s hcm hs
    rw [fetchVideoData_ok vf s hs]
    simp [getTopComments, hcm, Except.toOption]
  · intro handle cid cst pre post vf e h
    have hcol := collectVideos_statsError pre post vf e h
    cases cid with
    | error e1 => simp [gatherChannelIntelligence, Except.toOption]
    | ok cidv =>
        cases cst with
        | error e2 => simp [gatherChannelIntelligence, Except.toOption]
        | ok cstv =>
            cases hcv : collectVideos (pre ++ vf :: post) with
            | error e3 => simp [gatherChannelIntelligence, hcv, Except.toOption]
            | ok vd => rw [hcv] at hcol; simp [Except.toOption] at hcol

/-- C4 (witness): the three policies at concrete fetch outcomes. -/
theorem fetch_failure_policy_witness :
    (fetchVideoData vfTranscriptFail).toOption.map Video.transcript = some none ∧
    (fetchVideoData vfCommentsFail).toOption.map Video.comments = some [] ∧
    (gatherChannelIntelligence "@h" (.ok "cid") (.ok chanStatsFix)
        (.ok [vfTranscriptFail, vfStatsFail])).toOption = none :=
  ⟨fetch_failure_policy.1 vfTranscriptFail "no transcript" statsFix rfl rfl,
   fetch_failure_policy.2.1 vfCommentsFail "comments disabled" statsFix rfl rfl,
   fetch_failure_policy.2.2 "@h" (.ok "cid") (.ok chanStatsFix)
     [vfTranscriptFail] [] vfStatsFail "quota" rfl⟩

/-! ## C9: dataset construction invariants -/

/-- Folding an additive per-video measure equals the accumulator plus the
mapped sum. -/
theorem foldl_add_eq_sum (g : Video → ℕ) (l : List Video) :
    ∀ n : ℕ, l.foldl (fun sum v => sum + g v) n = n + (l.map g).sum := by
  induction l with
  | nil => intro n; simp
  | cons v t ih =>
      intro n
      rw [List.foldl_cons, ih, List.map_cons, List.sum_cons]
      omega

/-- The total-comments reduction as a mapped sum. -/
theorem commentLenSum_eq_sum (l : List Video) :
    commentLenSum l = (l.map fun v => v.comments.length).sum := by
  have h := foldl_add_eq_sum (fun v => v.comments.length) l 0
  simpa [commentLenSum] using h

/-- The stats comment sum as a mapped sum. -/
theorem statsCommentSum_eq_sum (l : List Video) :
    statsCommentSum l = (l.map fun v => parseIntD v.stats.commentCount).sum := by
  have h := foldl_add_eq_sum (fun v => parseIntD v.stats.commentCount) l 0
  simpa [statsCommentSum] using h

/-- C9: every dataset a successful collection produces satisfies the two
construction invariants: `totalComments` is the sum of the per-video
comment-list lengths and `totalVideosAnalyzed` is the video-list length. -/
theorem dataset_totals_invariant (handle : String) (cid : Except String String)
    (cst : Except String ChannelStats) (vfs : Except String (List VideoFetch))
    (d : ChannelDataset)
    (h : gatherChannelIntelligence handle cid cst vfs = .ok d) :
    d.totalComments = (d.videos.map fun v => v.comments.length).sum ∧
    d.totalVideosAnalyzed = d.videos.length := by
  cases cid with
  | error e => simp only [gatherChannelIntelligence] at h; exact Except.noConfusion h
  | ok cidv =>
      cases cst with
      | error e => simp only [gatherChannelIntelligence] at h; exact Except.noConfusion h
      | ok cstv =>
          cases vfs with
          | error e => simp only [gatherChannelIntelligence] at h; exact Except.noConfusion h
          | ok vfl =>
              obtain ⟨vd, hcv, hv, hc, hn⟩ := gather_ok_parts handle cidv cstv vfl d h
              rw [hv, hc, hn, commentLenSum_eq_sum]
              exact ⟨rfl, rfl⟩

/-- Dataset gathered from one video fetch whose transcript fetch failed. -/
def dsGathered : ChannelDataset :=
  (gatherChannelIntelligence "@h" (.ok "cid") (.ok chanStatsFix)
    (.ok [vfTranscriptFail])).toOption.getD dsEmpty

/-- C9 (witness): the invariant on the concrete gathered dataset. -/
theorem dataset_totals_invariant_witness :
    dsGathered.totalComments = (dsGathered.videos.map fun v => v.comments.length).sum ∧
    dsGathered.totalVideosAnalyzed = dsGathered.videos.length :=
  dataset_totals_invariant "@h" (.ok "cid") (.ok chanStatsFix) (.ok [vfTranscriptFail])
    dsGathered rfl

/-! ## C10: commentsProcessed versus the stats-derived comment totals -/

/-- Inversion of a successful metrics computation: the comment-related
fields in terms of the dataset. -/
theorem metrics_ok_fields (d : ChannelDataset) (m : Metrics)
    (h : calculateEnhancedMetrics d = .ok m) :
    m.commentsProcessed = d.totalComments ∧
    m.totalComments = statsCommentSum d.videos ∧
    m.avgComments = jround (jdiv (jofNat (statsCommentSum d.videos)) (jofNat d.videos.length)) ∧
    m.commentRate = (if 0 < statsViewSum d.videos then
        jfix 2 (jmul (jdiv (jofNat (statsCommentSum d.videos))
          (jofNat (statsViewSum d.videos))) (some 100))
      else some 0) := by
  cases hbv : bestVideo d.videos with
  | none =>
      simp only [calculateEnhancedMetrics, hbv] at h
      exact Except.noConfusion h
  | some bv =>
      simp only [calculateEnhancedMetrics, hbv] at h
      injection h with h'
      subst h'
      exact ⟨rfl, rfl, rfl, rfl⟩

/-- Comparing the fetched-comment sum against the stats-reported sum over
a successful collection whose fetched comments come from the reported
sources. -/
theorem collectVideos_comment_sums (vfs : List VideoFetch) :
    ∀ vd, collectVideos vfs = .ok vd →
    (∀ vf ∈ vfs, ∃ src s, vf.commentsFetch = .ok src ∧ vf.statsFetch = .ok s ∧
        s.commentCount = some src.length) →
    (commentLenSum vd ≤ statsCommentSum vd ∧
      ((∃ vf ∈ vfs, ∃ src, vf.commentsFetch = .ok src ∧ 50 < src.length) →
        commentLenSum vd < statsCommentSum vd)) := by
  induction vfs with
  | nil =>
      intro vd h hsrc
      simp only [collectVideos, Except.ok.injEq] at h
      subst h
      refine ⟨le_refl _, ?_⟩
      rintro ⟨vf, hvf, -⟩
      simp at hvf
  | cons vf rest ih =>
      intro vd h hsrc
      obtain ⟨v, vs, hf, hc, rfl⟩ := collectVideos_cons_ok vf rest vd h
      obtain ⟨src, s, hcf, hsf, hcc⟩ := hsrc vf (List.mem_cons_self vf rest)
      rw [fetchVideoData_ok vf s hsf] at hf
      injection hf with hf'
      have hcomments : v.comments = src.take 50 := by
        rw [← hf']
        simp [getTopComments, hcf]
      have hstats : v.stats = s := by rw [← hf']
      have hlen : v.comments.length = min 50 src.length := by
        rw [hcomments, List.length_take]
      have hcnt : parseIntD v.stats.commentCount = src.length := by
        rw [hstats, hcc]
        rfl
      have htail := ih vs hc (fun vf' hvf' => hsrc vf' (List.mem_cons_of_mem vf hvf'))
      have hconsL : commentLenSum (v :: vs) = v.comments.length + commentLenSum vs := by
        rw [commentLenSum_eq_sum, commentLenSum_eq_sum, List.map_cons, List.sum_cons]
      have hconsS : statsCommentSum (v :: vs) =
          parseIntD v.stats.commentCount + statsCommentSum vs := by
        rw [statsCommentSum_eq_sum, statsCommentSum_eq_sum, List.map_cons, List.sum_cons]
      rw [hconsL, hconsS, hlen, hcnt]
      constructor
      · exact Nat.add_le_add (min_le_right _ _) htail.1
      · rintro ⟨vf', hvf', src', hcf', hbig⟩
        rcases List.mem_cons.mp hvf' with rfl | hvf''
        · rw [hcf] at hcf'
          injection hcf' with hsrceq
          subst hsrceq
          have hlt : min 50 src.length < src.length := by omega
          exact Nat.add_lt_add_of_lt_of_le hlt htail.1
        · exact Nat.add_lt_add_of_le_of_lt (min_le_right _ _)
            (htail.2 ⟨vf', hvf'', src', hcf', hbig⟩)

/-- C10: in a successful metrics result, `commentsProcessed` is the
dataset's `totalComments` (the fetched top-level comments, at most 50 per
collected video), while `totalComments`, `avgComments` and `commentRate`
derive from the sum of the source-reported `stats.commentCount`; when the
fetched comments are the first 50 of each source list, the reported counts
match the source lists, and some video has more than 50 comments at the
source, the two fields differ. -/
theorem commentsProcessed_vs_statsTotal :
    (∀ (d : ChannelDataset) (m : Metrics), calculateEnhancedMetrics d = .ok m →
        m.commentsProcessed = d.totalComments ∧
        m.totalComments = statsCommentSum d.videos ∧
        m.avgComments = jround (jdiv (jofNat (statsCommentSum d.videos))
          (jofNat d.videos.length)) ∧
        m.commentRate = (if 0 < statsViewSum d.videos then
            jfix 2 (jmul (jdiv (jofNat (statsCommentSum d.videos))
              (jofNat (statsViewSum d.videos))) (some 100))
          else some 0)) ∧
    (∀ (handle cidv : String) (cstv : ChannelStats) (vfs : List VideoFetch)
        (d : ChannelDataset),
        gatherChannelIntelligence handle (.ok cidv) (.ok cstv) (.ok vfs) = .ok d →
        ∀ v ∈ d.videos, v.comments.length ≤ 50) ∧
    (∀ (handle cidv : String) (cstv : ChannelStats) (vfs : List VideoFetch)
        (d : ChannelDataset) (m : Metrics),
        (∀ vf ∈ vfs, ∃ src s, vf.commentsFetch = .ok src ∧ vf.statsFetch = .ok s ∧
            s.commentCount = some src.length) →
        (∃ vf ∈ vfs, ∃ src, vf.commentsFetch = .ok src ∧ 50 < src.length) →
        gatherChannelIntelligence handle (.ok cidv) (.ok cstv) (.ok vfs) = .ok d →
        calculateEnhancedMetrics d = .ok m →
        m.commentsProcessed < m.totalComments) := by
  refine ⟨metrics_ok_fields, ?_, ?_⟩
  · intro handle cidv cstv vfs d h v hv
    obtain ⟨vd, hcv, hveq, -, -⟩ := gather_ok_parts handle cidv cstv vfs d h
    exact collectVideos_comments_le vfs vd hcv v (hveq ▸ hv)
  · intro handle cidv cstv vfs d m hsrc hex hg hm
    obtain ⟨vd, hcv, hveq, htot, -⟩ := gather_ok_parts handle cidv cstv vfs d hg
    obtain ⟨hcp, htc, -, -⟩ := metrics_ok_fields d m hm
    rw [hcp, htc, hveq, htot]
    exact (collectVideos_comment_sums vfs vd hcv hsrc).2 hex

/-- Source comment list with 51 comments. -/
def srcBig : List Comment := List.replicate 51 commentFix

/-- Stats reporting the 51 source comments. -/
def statsBig : VideoStats :=
  { viewCount := some 500, likeCount := some 50, commentCount := some 51, duration := "PT1M" }

/-- Per-video fetches for a video with 51 comments at the source. -/
def vfBigComments : VideoFetch :=
  { listing := listingFix, transcriptFetch := .ok ["hello world"]
    commentsFetch := .ok srcBig, statsFetch := .ok statsBig }

/-- The all-default metrics record (only a `getD` fallback). -/
def metricsZero : Metrics :=
  { videosAnalyzed := 0, commentsProcessed := 0, totalViews := 0, avgViews := none
    viewsTrend := none, totalLikes := 0, avgLikes := none, engagementRate := none
    totalComments := 0, avgComments := none, commentRate := none
    bestPerformingVideo := { title := "", views := none, likes := none }
    uploadFrequency := none, transcriptAvailability := none
    subscriberCount := "", totalChannelViews := "", totalChannelVideos := "" }

/-- Dataset gathered from the 51-comment source. -/
def dsBig : ChannelDataset :=
  (gatherChannelIntelligence "@h" (.ok "cid") (.ok chanStatsFix)
    (.ok [vfBigComments])).toOption.getD dsEmpty

/-- Metrics of the 51-comment dataset. -/
def mBig : Metrics := (calculateEnhancedMetrics dsBig).toOption.getD metricsZero

/-- C10 (witness): on the concrete 51-comment scenario, `commentsProcessed`
equals the dataset total yet is strictly below the stats-derived total. -/
theorem commentsProcessed_vs_statsTotal_witness :
    mBig.commentsProcessed = dsBig.totalComments ∧
    mBig.commentsProcessed < mBig.totalComments :=
  ⟨(commentsProcessed_vs_statsTotal.1 dsBig mBig rfl).1,
   commentsProcessed_vs_statsTotal.2.2 "@h" "cid" chanStatsFix [vfBigComments] dsBig mBig
     (by
       intro vf hvf
       rcases List.mem_singleton.mp hvf with rfl
       exact ⟨srcBig, statsBig, rfl, rfl, rfl⟩)
     ⟨vfBigComments, List.mem_singleton.mpr rfl, srcBig, rfl, by simp [srcBig]⟩
     rfl rfl⟩
